import Mathlib

/-!
Verification of the query-routing and multi-engine fallback core of the
agentee backend, shallowly embedded from the Python sources:

* `src/mind/router.py`      — keyword router (`MindRouter.route`)
* `src/mind/__init__.py`    — orchestrator (`Mind.think`, `Mind._get_fallback_chain`)
* `src/mind/*_adapter.py`   — the three engine adapters' `generate` signatures
* `src/api/memory_api.py`   — behavioral modes (`MODES`, `set_mode`)
* `src/memory/__init__.py`  — context assembly (`TheMemory.build_context_prompt`,
                              `TheMemory.get_proactive_suggestions`)

Strings are modelled as Lean `String` / `List Char`; Python string slicing,
`in` (substring containment), `.lower()` (ASCII case folding; the keyword
vocabularies are ASCII or Arabic, which `lower` leaves unchanged) and
`.strip()` are given explicit executable models below.
-/

set_option maxRecDepth 100000

namespace Agentee

/-! ### Python string primitives -/

/-- Python `needle in hay` (substring containment) on code-point lists. -/
def pyContains (needle : List Char) : List Char → Bool
  | [] => needle.isEmpty
  | c :: t => needle.isPrefixOf (c :: t) || pyContains needle t

/-- Python `s.lower()`; ASCII case folding (identity on Arabic). -/
def pyLower (s : List Char) : List Char := s.map Char.toLower

/-- Python `s.strip()`: drop leading and trailing whitespace. -/
def pyStrip (s : List Char) : List Char :=
  ((s.dropWhile Char.isWhitespace).reverse.dropWhile Char.isWhitespace).reverse

/-- Python `s.lower()` on a `String`. -/
def pyLowerStr (s : String) : String := String.mk (pyLower s.toList)

/-- Python `s[:n]` character slicing. -/
def pyTrunc (s : String) (n : Nat) : List Char := s.toList.take n

/-! ### Router — src/mind/router.py -/

/-- `CREATIVE_KEYWORDS` (router.py lines 21-26). -/
def CREATIVE_KEYWORDS : List String :=
  ["imagine", "compose", "lyrics", "kahotia", "art", "poem", "song",
   "story", "creative", "write me", "paint", "dream", "muse",
   "philosophical", "inspire", "تخيل", "كاهوتيا", "أغنية", "شعر",
   "فلسفة", "قصة", "ألهمني"]

/-- `COMPLEX_KEYWORDS` (router.py lines 28-34). -/
def COMPLEX_KEYWORDS : List String :=
  ["design", "analyze", "architecture", "rootrise", "devoneers",
   "pantheon", "strategy", "explain", "compare", "evaluate",
   "plan", "build", "implement", "help me", "how should",
   "what if", "crema", "transform", "mswd", "funding",
   "صمم", "حلل", "خطة", "ساعدني"]

/-- `DATA_KEYWORDS` (router.py lines 36-40). -/
def DATA_KEYWORDS : List String :=
  ["research", "summarize", "data", "statistics", "compare",
   "list", "find", "search", "numbers", "report", "trends",
   "بحث", "بيانات", "إحصائيات", "قارن"]

/-- `SIMPLE_PATTERNS` (router.py lines 42-46). -/
def SIMPLE_PATTERNS : List String :=
  ["hello", "hi", "hey", "thanks", "thank you", "ok", "okay",
   "yes", "no", "bye", "good", "great", "cool", "nice",
   "أهلاً", "مرحبا", "شكراً", "تمام", "حلو"]

/-- `MindRouter._matches_keywords`: any keyword occurs in the query. -/
def matchesKeywords (q : List Char) (kws : List String) : Bool :=
  kws.any (fun kw => pyContains kw.toList q)

/-- `MindRouter._is_simple` (router.py lines 100-111). -/
def isSimple (q : List Char) : Bool :=
  if q.length < 10 then true
  else SIMPLE_PATTERNS.any (fun p =>
    q == p.toList
      || (p.toList ++ [' ']).isPrefixOf q
      || (p.toList ++ [',']).isPrefixOf q)

/-- `"؀" <= c <= "ۿ"` (router.py line 76). -/
def isArabicChar (c : Char) : Bool := 0x0600 ≤ c.toNat && c.toNat ≤ 0x06FF

/-- Count of Arabic characters in the raw query (router.py line 76). -/
def arabicCount (s : List Char) : Nat := (s.filter isArabicChar).length

/-- The default engine for rules 6 and 7 (router.py lines 86, 90). -/
def defaultEngine (mode : String) : String :=
  if mode = "cloud" then "gemini" else "ollama"

/-- Rule 6 guard: `len(q) < 30 and self._is_simple(q)` (router.py line 85). -/
def simpleCheck (q : List Char) : Bool := decide (q.length < 30) && isSimple q

/-- `q = query.lower().strip()` (router.py line 61). -/
def normalizeQuery (query : String) : List Char := pyStrip (pyLower query.toList)

/-- The normalized query matches the creative vocabulary (route rule 1 guard). -/
def matchesCreative (query : String) : Bool :=
  matchesKeywords (normalizeQuery query) CREATIVE_KEYWORDS

/-- The normalized query matches the complex vocabulary (route rule 2 guard). -/
def matchesComplex (query : String) : Bool :=
  matchesKeywords (normalizeQuery query) COMPLEX_KEYWORDS

/-- The normalized query matches the data vocabulary (route rule 3 guard). -/
def matchesData (query : String) : Bool :=
  matchesKeywords (normalizeQuery query) DATA_KEYWORDS

/-- `MindRouter.route` (router.py lines 56-91): returns (engine_name, category). -/
def route (mode : String) (query : String) : String × String :=
  if matchesCreative query then ("claude", "creative")
  else if matchesComplex query then ("claude", "complex")
  else if matchesData query then ("gemini", "data")
  else if 10 ≤ arabicCount query.toList then ("claude", "arabic")
  else if 200 ≤ query.length then ("claude", "long")
  else if simpleCheck (normalizeQuery query) then (defaultEngine mode, "simple")
  else (defaultEngine mode, "default")

/-! ### C3: route on the empty query -/

/-- C3 counterexample: the claim says `route ""` yields category `"default"`
(rule 7); in fact the empty query satisfies rule 6 (`len(q) < 30` and
`_is_simple` returns `True` because `len(q) < 10`), so the category is
`"simple"` in both router modes. -/
theorem route_empty_not_default :
    route "cloud" "" = ("gemini", "simple")
      ∧ route "desktop" "" = ("ollama", "simple")
      ∧ (route "cloud" "").2 ≠ "default" := by
  refine ⟨rfl, rfl, ?_⟩
  decide

/-- C3 amended: `route` applied to the empty query returns the default fast
engine with category `"simple"`: the empty query matches rule 6, since it is
shorter than 30 characters and `_is_simple` accepts any query shorter than
10 characters. -/
theorem route_empty (mode : String) :
    route mode "" = (defaultEngine mode, "simple") := rfl

/-! ### C5: first-match-wins precedence -/

/-- C5 counterexample: a 200-character query that contains both a creative
term (`"poem"`) and a complex term (`"design"`): rule 1 masks rule 2, so the
category is `"creative"`, not `"complex"`, refuting the claim's second half
as universally stated. -/
def cexQuery : String := "poem design " ++ String.mk (List.replicate 188 'a')

/-- A 200-character query containing a complex term and no creative term. -/
def complexLongQuery : String := "design " ++ String.mk (List.replicate 193 'a')

set_option maxHeartbeats 1000000 in
/-- C5 counterexample: `cexQuery` contains a complex-vocabulary term and has
length ≥ 200, yet `route` classifies it `"creative"`, not `"complex"`,
because the creative rule fires first. -/
theorem route_precedence_cex :
    matchesComplex cexQuery = true
      ∧ 200 ≤ cexQuery.length
      ∧ (route "cloud" cexQuery).2 = "creative"
      ∧ (route "cloud" cexQuery).2 ≠ "complex" := by
  refine ⟨rfl, by decide, rfl, ?_⟩
  intro h
  rw [show (route "cloud" cexQuery).2 = "creative" from rfl] at h
  exact absurd h (by decide)

/-- C5 amended: ordered first-match-wins classification: every query matching
a creative-vocabulary term routes to `("claude", "creative")` regardless of
length or script; and every query matching a complex-vocabulary term, *not*
matching any creative-vocabulary term, of length at least 200 routes as
`"complex"`, not `"long"` (rule 2 precedes rule 5). -/
theorem route_precedence (mode query : String) :
    (matchesCreative query = true → route mode query = ("claude", "creative"))
      ∧ (matchesComplex query = true → matchesCreative query = false →
          200 ≤ query.length → (route mode query).2 = "complex") := by
  constructor
  · intro h
    unfold route
    simp [h]
  · intro hc hnc _
    unfold route
    simp [hc, hnc]

set_option maxHeartbeats 1000000 in
/-- Witness for `route_precedence`: the spec's own example
`route "write me a poem about the sea"` routes creative, and a 200-character
pure-complex query routes `"complex"`. -/
theorem route_precedence_witness :
    route "cloud" "write me a poem about the sea" = ("claude", "creative")
      ∧ (route "cloud" complexLongQuery).2 = "complex" :=
  ⟨(route_precedence "cloud" "write me a poem about the sea").1 rfl,
   (route_precedence "cloud" complexLongQuery).2 rfl rfl (by decide)⟩

/-! ### Fallback chain — src/mind/__init__.py `Mind._get_fallback_chain` -/

/-- `all_engines = ["claude", "gemini", "openai"]` (mind/__init__.py line 157). -/
def allEngines : List String := ["claude", "gemini", "openai"]

/-- `Mind._get_fallback_chain` (mind/__init__.py lines 155-162):
start from `[primary]` and append each known engine not already present. -/
def getFallbackChain (primary : String) : List String :=
  allEngines.foldl (fun chain eng => if eng ∈ chain then chain else chain ++ [eng]) [primary]

/-- Shared helper: for a primary drawn from the engine set, the chain is a
permutation of `allEngines` headed by the primary, without duplicates. -/
theorem getFallbackChain_spec (p : String) (hp : p ∈ allEngines) :
    (getFallbackChain p).head? = some p
      ∧ (getFallbackChain p).Perm allEngines
      ∧ (getFallbackChain p).Nodup := by
  simp only [allEngines, List.mem_cons, List.mem_singleton, List.not_mem_nil, or_false] at hp
  rcases hp with rfl | rfl | rfl <;> refine ⟨rfl, ?_, ?_⟩ <;> decide

/-- Membership form of `getFallbackChain_spec`, shared by the orchestrator
invariants. -/
theorem getFallbackChain_mem {p e : String} (hp : p ∈ allEngines)
    (he : e ∈ getFallbackChain p) : e ∈ allEngines :=
  ((getFallbackChain_spec p hp).2.1.mem_iff).mp he

/-- C4: for any preferred engine in the engine set, the fallback chain is a
permutation of the full engine set whose head is the preferred engine, with
no duplicate and no omitted engine; determinism is inherent in
`getFallbackChain` being a function of the preferred engine and the fixed
engine set. -/
theorem fallback_chain_invariant (p : String) (hp : p ∈ allEngines) :
    (getFallbackChain p).head? = some p
      ∧ (getFallbackChain p).Perm allEngines
      ∧ (getFallbackChain p).Nodup :=
  getFallbackChain_spec p hp

/-- Witness for `fallback_chain_invariant` at the preferred engine
`"openai"`. -/
theorem fallback_chain_invariant_witness :
    (getFallbackChain "openai").head? = some "openai"
      ∧ (getFallbackChain "openai").Perm allEngines
      ∧ (getFallbackChain "openai").Nodup :=
  fallback_chain_invariant "openai" (by decide)

/-! ### Orchestrator — src/mind/__init__.py `Mind.think`

The engine adapters are external I/O; their outcomes are abstracted by a
`behavior` function mapping (engine name, enriched prompt, max_tokens) to
`Except String String` — `.ok` is generated text, `.error` is any raised
exception, exactly what the `try/except` around `adapter.generate` in
`Mind.think` distinguishes. The configured engine set (the keys of
`self.engines`, populated only by `Mind.initialize`) is the `engines`
parameter. -/

/-- A mode configuration record, the shape of the values of `MODES`
(api/memory_api.py lines 47-101): `routing` is the optional forced engine,
plus prompt addon and token budget. -/
structure ModeConfig where
  routing : Option String
  prompt_addon : String
  max_tokens : Nat
deriving DecidableEq

/-- Python `f"{mode}"` on an `Optional[str]`: `None` renders as `"None"`. -/
def pyStr : Option String → String
  | none => "None"
  | some s => s

/-- The fixed degraded-service message (mind/__init__.py line 153). -/
def degradedMessage : String :=
  "🌊 The Wave encountered turbulence. All engines unavailable."

/-- The observable outcome of one `Mind.think` call: the returned string,
the engines whose `generate` was invoked in order, the engine that
succeeded (whose session counter is incremented), and the category stored
in `router.last_category` (set only on success). -/
structure ThinkResult where
  response : String
  invoked : List String
  succeeded : Option String
  recordedCategory : Option String
deriving DecidableEq

/-- The target/category/addon/budget state `Mind.think` computes before
walking the chain (mind/__init__.py lines 92-111). -/
structure ThinkSetup where
  target : String
  category : String
  addon : String
  maxTok : Nat
deriving DecidableEq

/-- Mode override (mind/__init__.py lines 92-107): route the query; if a
mode config carries a truthy `routing` engine that is configured, force it
and append `"+<mode>"` to the category; take the addon and budget from the
config. -/
def thinkSetupPre (routerMode : String) (engines : List String) (query : String)
    (mode : Option String) (modeConfig : Option ModeConfig) : ThinkSetup :=
  let r := route routerMode query
  let s0 : ThinkSetup := { target := r.1, category := r.2, addon := "", maxTok := 2048 }
  match modeConfig with
  | none => s0
  | some mc =>
    let s2 :=
      match mc.routing with
      | some f =>
        if f ≠ "" ∧ f ∈ engines then
          { s0 with target := f, category := r.2 ++ "+" ++ pyStr mode }
        else s0
      | none => s0
    { s2 with addon := mc.prompt_addon, maxTok := mc.max_tokens }

/-- `if target_engine == "ollama": target_engine = "gemini"`
(mind/__init__.py lines 109-111). -/
def ollamaRewrite (s : ThinkSetup) : ThinkSetup :=
  if s.target = "ollama" then { s with target := "gemini" } else s

/-- The full target/category/addon/budget computation of `Mind.think`
before the chain walk (mind/__init__.py lines 92-111). -/
def thinkSetup (routerMode : String) (engines : List String) (query : String)
    (mode : Option String) (modeConfig : Option ModeConfig) : ThinkSetup :=
  ollamaRewrite (thinkSetupPre routerMode engines query mode modeConfig)

/-- Prompt enrichment (mind/__init__.py lines 116-127): optional context
block, optional mode addon, then the user query, joined by blank lines. -/
def enrichPrompt (query context addon : String) : String :=
  let parts :=
    (if context ≠ "" then ["[CONTEXT FROM MEMORY]\n" ++ context ++ "\n[END CONTEXT]"] else [])
      ++ (if addon ≠ "" then ["[MODE INSTRUCTION]\n" ++ addon ++ "\n[END MODE]"] else [])
      ++ ["User query: " ++ query]
  String.intercalate "\n\n" parts

/-- The fallback loop of `Mind.think` (mind/__init__.py lines 129-153):
skip unconfigured engines, invoke configured ones, return on the first
success, fall through to the degraded message on exhaustion. `inv`
accumulates the engines invoked so far. -/
def walkChain (engines : List String)
    (behavior : String → String → Nat → Except String String)
    (enriched : String) (maxTok : Nat) (category : String) :
    List String → List String → ThinkResult
  | [], inv =>
    { response := degradedMessage, invoked := inv, succeeded := none, recordedCategory := none }
  | e :: rest, inv =>
    if e ∈ engines then
      match behavior e enriched maxTok with
      | .ok resp =>
        { response := resp, invoked := inv ++ [e], succeeded := some e,
          recordedCategory := some category }
      | .error _ => walkChain engines behavior enriched maxTok category rest (inv ++ [e])
    else walkChain engines behavior enriched maxTok category rest inv

/-- The fallback chain `Mind.think` walks (mind/__init__.py line 114). -/
def thinkChain (routerMode : String) (engines : List String) (query : String)
    (mode : Option String) (modeConfig : Option ModeConfig) : List String :=
  getFallbackChain (thinkSetup routerMode engines query mode modeConfig).target

/-- `Mind.think` (mind/__init__.py lines 78-153). -/
def think (routerMode : String) (engines : List String)
    (behavior : String → String → Nat → Except String String)
    (query context : String) (mode : Option String) (modeConfig : Option ModeConfig) :
    ThinkResult :=
  let s := thinkSetup routerMode engines query mode modeConfig
  walkChain engines behavior (enrichPrompt query context s.addon) s.maxTok s.category
    (thinkChain routerMode engines query mode modeConfig) []

/-- `self.session_queries[engine_name] += 1` happens exactly for the
succeeding engine (mind/__init__.py line 137). -/
def sessionQueriesAfter (session : String → Nat) (r : ThinkResult) : String → Nat :=
  fun e => if r.succeeded = some e then session e + 1 else session e

/-! #### walkChain lemmas -/

/-- If every configured engine's generate fails, the walk exhausts. -/
theorem walkChain_all_fail (engines : List String)
    (behavior : String → String → Nat → Except String String)
    (enriched : String) (maxTok : Nat) (category : String)
    (hfail : ∀ e p t, e ∈ engines → (behavior e p t).isOk = false) :
    ∀ chainL inv,
      (walkChain engines behavior enriched maxTok category chainL inv).response
          = degradedMessage
        ∧ (walkChain engines behavior enriched maxTok category chainL inv).succeeded = none := by
  intro chainL
  induction chainL with
  | nil => intro inv; exact ⟨rfl, rfl⟩
  | cons e rest ih =>
    intro inv
    by_cases he : e ∈ engines
    · have hb := hfail e enriched maxTok he
      cases hbe : behavior e enriched maxTok with
      | ok v => rw [hbe] at hb; simp [Except.isOk, Except.toBool] at hb
      | error msg => simpa [walkChain, he, hbe] using ih (inv ++ [e])
    · simpa [walkChain, he] using ih inv

/-- The accumulator is a prefix of the final invocation list. -/
theorem walkChain_invoked_extends (engines : List String)
    (behavior : String → String → Nat → Except String String)
    (enriched : String) (maxTok : Nat) (category : String) :
    ∀ chainL inv, ∃ tail,
      (walkChain engines behavior enriched maxTok category chainL inv).invoked = inv ++ tail := by
  intro chainL
  induction chainL with
  | nil => intro inv; exact ⟨[], by simp [walkChain]⟩
  | cons e rest ih =>
    intro inv
    by_cases he : e ∈ engines
    · cases hbe : behavior e enriched maxTok with
      | ok v => exact ⟨[e], by simp [walkChain, he, hbe]⟩
      | error msg =>
        obtain ⟨tail, ht⟩ := ih (inv ++ [e])
        exact ⟨e :: tail, by simp [walkChain, he, hbe, ht]⟩
    · obtain ⟨tail, ht⟩ := ih inv
      exact ⟨tail, by simp [walkChain, he, ht]⟩

/-- The recorded category is `none` or the category the walk carries. -/
theorem walkChain_recorded (engines : List String)
    (behavior : String → String → Nat → Except String String)
    (enriched : String) (maxTok : Nat) (category : String) :
    ∀ chainL inv,
      (walkChain engines behavior enriched maxTok category chainL inv).recordedCategory = none
        ∨ (walkChain engines behavior enriched maxTok category chainL inv).recordedCategory
            = some category := by
  intro chainL
  induction chainL with
  | nil => intro inv; exact Or.inl rfl
  | cons e rest ih =>
    intro inv
    by_cases he : e ∈ engines
    · cases hbe : behavior e enriched maxTok with
      | ok v => exact Or.inr (by simp [walkChain, he, hbe])
      | error msg => simpa [walkChain, he, hbe] using ih (inv ++ [e])
    · simpa [walkChain, he] using ih inv

/-- Every invoked engine comes from the accumulator or the chain. -/
theorem walkChain_invoked_from (engines : List String)
    (behavior : String → String → Nat → Except String String)
    (enriched : String) (maxTok : Nat) (category : String) :
    ∀ chainL inv e,
      e ∈ (walkChain engines behavior enriched maxTok category chainL inv).invoked →
        e ∈ inv ∨ e ∈ chainL := by
  intro chainL
  induction chainL with
  | nil => intro inv e he; exact Or.inl (by simpa [walkChain] using he)
  | cons c rest ih =>
    intro inv e he
    by_cases hc : c ∈ engines
    · cases hbe : behavior c enriched maxTok with
      | ok v =>
        simp only [walkChain, hc, if_true, hbe] at he
        rcases List.mem_append.mp he with h | h
        · exact Or.inl h
        · exact Or.inr (by simpa using Or.inl (List.mem_singleton.mp h))
      | error msg =>
        simp only [walkChain, hc, if_true, hbe] at he
        rcases ih (inv ++ [c]) e he with h | h
        · rcases List.mem_append.mp h with h' | h'
          · exact Or.inl h'
          · exact Or.inr (by simp [List.mem_singleton.mp h'])
        · exact Or.inr (List.mem_cons_of_mem _ h)
    · simp only [walkChain, hc, if_false] at he
      rcases ih inv e he with h | h
      · exact Or.inl h
      · exact Or.inr (List.mem_cons_of_mem _ h)

/-! ### C2: total-exhaustion soft failure -/

/-- C2: if every configured adapter's `generate` fails, `think` returns the
fixed degraded message (it does not raise: every adapter outcome is handled
and `think` is total), no engine succeeds, and the session counters are
unchanged. -/
theorem think_exhaustion (routerMode : String) (engines : List String)
    (behavior : String → String → Nat → Except String String)
    (query context : String) (mode : Option String) (modeConfig : Option ModeConfig)
    (hfail : ∀ e p t, e ∈ engines → (behavior e p t).isOk = false) :
    (think routerMode engines behavior query context mode modeConfig).response
        = degradedMessage
      ∧ (think routerMode engines behavior query context mode modeConfig).succeeded = none
      ∧ ∀ session e,
          sessionQueriesAfter session (think routerMode engines behavior query context mode modeConfig) e
            = session e := by
  have h := walkChain_all_fail engines behavior
    (enrichPrompt query context (thinkSetup routerMode engines query mode modeConfig).addon)
    (thinkSetup routerMode engines query mode modeConfig).maxTok
    (thinkSetup routerMode engines query mode modeConfig).category hfail
    (thinkChain routerMode engines query mode modeConfig) []
  refine ⟨h.1, h.2, fun session e => ?_⟩
  have h2 : (think routerMode engines behavior query context mode modeConfig).succeeded = none :=
    h.2
  simp [sessionQueriesAfter, h2]

/-- Witness for `think_exhaustion`: all three engines configured and all
failing. -/
theorem think_exhaustion_witness :
    (think "cloud" allEngines (fun _ _ _ => .error "down") "hi" "" none none).response
        = degradedMessage
      ∧ (think "cloud" allEngines (fun _ _ _ => .error "down") "hi" "" none none).succeeded
          = none
      ∧ ∀ session e,
          sessionQueriesAfter session
              (think "cloud" allEngines (fun _ _ _ => .error "down") "hi" "" none none) e
            = session e :=
  think_exhaustion "cloud" allEngines (fun _ _ _ => .error "down") "hi" "" none none
    (fun _ _ _ _ => rfl)

/-! ### Behavioral modes — src/api/memory_api.py -/

/-- `MODES["default"]` (memory_api.py lines 48-53; descriptions omitted,
they never influence behavior). -/
def defaultMode : ModeConfig := { routing := none, prompt_addon := "", max_tokens := 2048 }

/-- `MODES["deep"]` (memory_api.py lines 54-63). -/
def deepMode : ModeConfig :=
  { routing := some "claude",
    prompt_addon :=
      "Provide deep, thorough analysis. Take your time. " ++
      "Explore nuances, consider multiple angles, and give comprehensive reasoning. " ++
      "This is deep-think mode — quality over brevity.",
    max_tokens := 4096 }

/-- `MODES["crema"]` (memory_api.py lines 64-74). -/
def cremaMode : ModeConfig :=
  { routing := none,
    prompt_addon :=
      "Be concise and action-oriented. Crema mode — quick wins only. " ++
      "Suggest actionable next steps. Use bullet points. " ++
      "Every response should end with a concrete 'Next step:' recommendation. " ++
      "Think 30/60/90 day buckets.",
    max_tokens := 1024 }

/-- `MODES["creative"]` (memory_api.py lines 75-85). -/
def creativeMode : ModeConfig :=
  { routing := some "claude",
    prompt_addon :=
      "Channel KAHOTIA energy. Be creative, poetic, philosophical. " ++
      "كل حاجة بترقص — Everything dances. " ++
      "Use Arabic naturally when it fits. Think in metaphors and connections. " ++
      "Surprise Tee with unexpected perspectives. " ++
      "اللعب أهم من الحل — Play matters more than the solution.",
    max_tokens := 2048 }

/-- `MODES["factory"]` (memory_api.py lines 86-100). -/
def factoryMode : ModeConfig :=
  { routing := some "claude",
    prompt_addon :=
      "You are in Factory/Operations mode for Al-Manar Plant. " ++
      "Context: Tee is Plant Director managing 300+ employees. " ++
      "Focus on: ISO compliance (9001/14001/45001), production efficiency, " ++
      "maintenance schedules, HSE (Health Safety Environment), KPIs, " ++
      "OEE (Overall Equipment Effectiveness), downtime analysis, " ++
      "shift management, and operational excellence. " ++
      "Use manufacturing terminology. Be precise and data-oriented.",
    max_tokens := 2048 }

/-- The `MODES` registry (memory_api.py lines 47-101), in dict insertion
order. -/
def MODES : List (String × ModeConfig) :=
  [("default", defaultMode), ("deep", deepMode), ("crema", cremaMode),
   ("creative", creativeMode), ("factory", factoryMode)]

/-- The valid mode names, in registry order. -/
def modeNames : List String := MODES.map Prod.fst

/-! ### C6: mode override -/

/-- C6: when a mode config carries a truthy forced engine that is among the
configured engines (and the configured set comes from `initialize`, hence
only contains known engine names), `think`'s effective target is the forced
engine — it heads the invocation order — and whenever a category is
recorded it is the router's category with `"+<mode>"` appended. -/
theorem think_mode_override (routerMode : String) (engines : List String)
    (behavior : String → String → Nat → Except String String)
    (query context : String) (m : String) (mc : ModeConfig) (f : String)
    (hr : mc.routing = some f) (hf : f ≠ "") (hin : f ∈ engines)
    (hsub : ∀ e ∈ engines, e ∈ allEngines) :
    (think routerMode engines behavior query context (some m) (some mc)).invoked.head?
        = some f
      ∧ ((think routerMode engines behavior query context (some m) (some mc)).recordedCategory
            = none
          ∨ (think routerMode engines behavior query context (some m) (some mc)).recordedCategory
              = some ((route routerMode query).2 ++ "+" ++ m)) := by
  have hmemf : f ∈ allEngines := hsub f hin
  have hnotollama : f ≠ "ollama" := by
    intro h
    rw [h] at hmemf
    exact absurd hmemf (by decide)
  have hpre : thinkSetupPre routerMode engines query (some m) (some mc)
      = ⟨f, (route routerMode query).2 ++ "+" ++ m, mc.prompt_addon, mc.max_tokens⟩ := by
    simp only [thinkSetupPre, hr]
    simp [hf, hin, pyStr]
  have hsetup : thinkSetup routerMode engines query (some m) (some mc)
      = ⟨f, (route routerMode query).2 ++ "+" ++ m, mc.prompt_addon, mc.max_tokens⟩ := by
    rw [thinkSetup, hpre, ollamaRewrite]
    simp [hnotollama]
  obtain ⟨rest, hchain⟩ : ∃ rest, getFallbackChain f = f :: rest := by
    have hh := (getFallbackChain_spec f hmemf).1
    cases hcf : getFallbackChain f with
    | nil => rw [hcf] at hh; simp at hh
    | cons a t =>
      rw [hcf] at hh
      simp only [List.head?_cons, Option.some.injEq] at hh
      exact ⟨t, by rw [hh]⟩
  have hthink : think routerMode engines behavior query context (some m) (some mc)
      = walkChain engines behavior (enrichPrompt query context mc.prompt_addon)
          mc.max_tokens ((route routerMode query).2 ++ "+" ++ m) (f :: rest) [] := by
    unfold think thinkChain
    rw [hsetup, hchain]
  rw [hthink]
  constructor
  · cases hbe : behavior f (enrichPrompt query context mc.prompt_addon) mc.max_tokens with
    | ok v => simp [walkChain, hin, hbe]
    | error msg =>
      obtain ⟨tail, ht⟩ := walkChain_invoked_extends engines behavior
        (enrichPrompt query context mc.prompt_addon) mc.max_tokens
        ((route routerMode query).2 ++ "+" ++ m) rest ([] ++ [f])
      simp only [walkChain, hin, if_true, hbe]
      rw [ht]
      simp
  · exact walkChain_recorded engines behavior _ _ _ (f :: rest) []

/-- Witness for `think_mode_override`: the deep mode forces `"claude"` on a
query the router would send to `"gemini"`. -/
theorem think_mode_override_witness :
    (think "cloud" allEngines (fun _ _ _ => .ok "answer") "hello" ""
        (some "deep") (some deepMode)).invoked.head? = some "claude"
      ∧ ((think "cloud" allEngines (fun _ _ _ => .ok "answer") "hello" ""
            (some "deep") (some deepMode)).recordedCategory = none
          ∨ (think "cloud" allEngines (fun _ _ _ => .ok "answer") "hello" ""
              (some "deep") (some deepMode)).recordedCategory
                = some ((route "cloud" "hello").2 ++ "+" ++ "deep")) :=
  think_mode_override "cloud" allEngines (fun _ _ _ => .ok "answer") "hello" ""
    "deep" deepMode "claude" rfl (by decide) (by decide) (fun _ he => he)

/-! ### C10: no ollama in the chain -/

/-- The router's engine is always claude, gemini or ollama. -/
theorem route_fst_mem (mode query : String) :
    (route mode query).1 ∈ ["claude", "gemini", "ollama"] := by
  unfold route defaultEngine
  split_ifs <;> simp

/-- Before the ollama rewrite, the target is the router's engine or a
configured forced engine. -/
theorem thinkSetupPre_target (routerMode : String) (engines : List String)
    (query : String) (mode : Option String) (modeConfig : Option ModeConfig) :
    (thinkSetupPre routerMode engines query mode modeConfig).target = (route routerMode query).1
      ∨ (thinkSetupPre routerMode engines query mode modeConfig).target ∈ engines := by
  rcases modeConfig with _ | mc
  · exact Or.inl rfl
  · rcases hrt : mc.routing with _ | f
    · left
      simp [thinkSetupPre, hrt]
    · by_cases hcond : f ≠ "" ∧ f ∈ engines
      · right
        simp only [thinkSetupPre, hrt]
        simp only [if_pos hcond]
        exact hcond.2
      · left
        simp only [thinkSetupPre, hrt]
        simp [if_neg hcond]

/-- The ollama rewrite lands in the known engine set whenever the input
target is a router result or a configured engine. -/
theorem ollamaRewrite_mem (engines : List String) (s : ThinkSetup)
    (hsub : ∀ e ∈ engines, e ∈ allEngines)
    (h : s.target ∈ ["claude", "gemini", "ollama"] ∨ s.target ∈ engines) :
    (ollamaRewrite s).target ∈ allEngines := by
  rw [ollamaRewrite]
  split
  · simp [allEngines]
  · rename_i hno
    rcases h with h | h
    · simp only [List.mem_cons, List.mem_singleton, List.not_mem_nil, or_false] at h
      rcases h with h | h | h
      · simp [allEngines, h]
      · simp [allEngines, h]
      · exact absurd h hno
    · exact hsub _ h

/-- The effective target after mode override and ollama rewrite is a known
engine, provided the configured set only holds known engines. -/
theorem thinkSetup_target_mem (routerMode : String) (engines : List String)
    (query : String) (mode : Option String) (modeConfig : Option ModeConfig)
    (hsub : ∀ e ∈ engines, e ∈ allEngines) :
    (thinkSetup routerMode engines query mode modeConfig).target ∈ allEngines := by
  rw [thinkSetup]
  apply ollamaRewrite_mem engines _ hsub
  rcases thinkSetupPre_target routerMode engines query mode modeConfig with h | h
  · left
    rw [h]
    exact route_fst_mem routerMode query
  · exact Or.inr h

/-- C10: the fallback chain `think` walks contains only the engine names
claude, gemini and openai — in particular never `"ollama"`, even in desktop
router mode — and therefore every engine `think` invokes is one of the
three known engines. -/
theorem think_no_ollama (routerMode : String) (engines : List String)
    (behavior : String → String → Nat → Except String String)
    (query context : String) (mode : Option String) (modeConfig : Option ModeConfig)
    (hsub : ∀ e ∈ engines, e ∈ allEngines) :
    (∀ e ∈ thinkChain routerMode engines query mode modeConfig, e ∈ allEngines)
      ∧ "ollama" ∉ thinkChain routerMode engines query mode modeConfig
      ∧ ∀ e ∈ (think routerMode engines behavior query context mode modeConfig).invoked,
          e ∈ allEngines := by
  have htm := thinkSetup_target_mem routerMode engines query mode modeConfig hsub
  have hchain : ∀ e ∈ thinkChain routerMode engines query mode modeConfig, e ∈ allEngines :=
    fun _ he => getFallbackChain_mem htm he
  refine ⟨hchain, fun h => absurd (hchain _ h) (by decide), fun e he => ?_⟩
  have h2 := walkChain_invoked_from engines behavior
    (enrichPrompt query context (thinkSetup routerMode engines query mode modeConfig).addon)
    (thinkSetup routerMode engines query mode modeConfig).maxTok
    (thinkSetup routerMode engines query mode modeConfig).category
    (thinkChain routerMode engines query mode modeConfig) [] e he
  rcases h2 with h | h
  · exact absurd h (List.not_mem_nil e)
  · exact hchain e h

/-- Witness for `think_no_ollama` in desktop mode, where the router's
default target is `"ollama"`. -/
theorem think_no_ollama_witness :
    (∀ e ∈ thinkChain "desktop" allEngines "hi" none none, e ∈ allEngines)
      ∧ "ollama" ∉ thinkChain "desktop" allEngines "hi" none none
      ∧ ∀ e ∈ (think "desktop" allEngines (fun _ _ _ => .error "down") "hi" "" none none).invoked,
          e ∈ allEngines :=
  think_no_ollama "desktop" allEngines (fun _ _ _ => .error "down") "hi" "" none none
    (fun _ he => he)

/-! ### C7: set_mode rejection — src/api/memory_api.py `set_mode` -/

/-- `pyContains` survives prepending to the haystack. -/
theorem pyContains_append_left (needle a t : List Char)
    (h : pyContains needle t = true) : pyContains needle (a ++ t) = true := by
  induction a with
  | nil => simpa using h
  | cons c cs ih =>
    simp only [List.cons_append, pyContains, Bool.or_eq_true]
    exact Or.inr ih

/-- A haystack starting with the needle contains it. -/
theorem pyContains_of_isPre (needle hay : List Char)
    (h : needle.isPrefixOf hay = true) : pyContains needle hay = true := by
  cases hay with
  | nil =>
    cases needle with
    | nil => rfl
    | cons c cs => simp at h
  | cons c t =>
    simp only [pyContains, Bool.or_eq_true]
    exact Or.inl h

/-- The middle of a three-way concatenation is contained in it. -/
theorem pyContains_append_mid (a b c : List Char) :
    pyContains b (a ++ (b ++ c)) = true :=
  pyContains_append_left b a _ (pyContains_of_isPre b (b ++ c) (by simp))

/-- The mutable `request.app.state` slice `set_mode` touches. -/
structure AppState where
  current_mode : String
deriving DecidableEq

/-- The `HTTPException` detail string of `set_mode`
(memory_api.py lines 202-206). -/
def setModeErrorMsg (mode : String) : String :=
  "Unknown mode: " ++ mode ++ ". Available: " ++ String.intercalate ", " modeNames

/-- `set_mode` (memory_api.py lines 187-222): lower-case the requested
mode; reject unknown names with a 400 error before any state mutation,
otherwise store the mode. The result pairs the app state after the call
with the outcome. -/
def setMode (st : AppState) (reqMode : String) : AppState × Except String String :=
  let mode := pyLowerStr reqMode
  if mode ∈ modeNames then ({ current_mode := mode }, .ok mode)
  else (st, .error (setModeErrorMsg mode))

/-- C7: setting an unknown mode name fails with an error whose message
names the offending (lower-cased) value and every valid mode name, and the
active mode is unchanged by the failed call. -/
theorem setMode_invalid (st : AppState) (reqMode : String)
    (h : pyLowerStr reqMode ∉ modeNames) :
    (setMode st reqMode).1 = st
      ∧ (setMode st reqMode).2 = .error (setModeErrorMsg (pyLowerStr reqMode))
      ∧ pyContains (pyLowerStr reqMode).toList (setModeErrorMsg (pyLowerStr reqMode)).toList
          = true
      ∧ ∀ v ∈ modeNames,
          pyContains v.toList (setModeErrorMsg (pyLowerStr reqMode)).toList = true := by
  have hm : ∀ mode : String, (setModeErrorMsg mode).toList
      = "Unknown mode: ".toList
          ++ (mode.toList
            ++ (". Available: ".toList ++ (String.intercalate ", " modeNames).toList)) := by
    intro mode
    simp [setModeErrorMsg, String.toList, String.data_append, List.append_assoc]
  refine ⟨by simp [setMode, h], by simp [setMode, h], ?_, ?_⟩
  · rw [hm]
    exact pyContains_append_mid _ _ _
  · intro v hv
    rw [hm]
    apply pyContains_append_left
    apply pyContains_append_left
    apply pyContains_append_left
    fin_cases hv <;> decide

/-- Witness for `setMode_invalid` at the unknown mode `"TURBO"`. -/
theorem setMode_invalid_witness :
    (setMode ⟨"default"⟩ "TURBO").1 = (⟨"default"⟩ : AppState)
      ∧ (setMode ⟨"default"⟩ "TURBO").2 = .error (setModeErrorMsg (pyLowerStr "TURBO"))
      ∧ pyContains (pyLowerStr "TURBO").toList (setModeErrorMsg (pyLowerStr "TURBO")).toList
          = true
      ∧ ∀ v ∈ modeNames,
          pyContains v.toList (setModeErrorMsg (pyLowerStr "TURBO")).toList = true :=
  setMode_invalid ⟨"default"⟩ "TURBO" (by decide)

/-! ### Context assembly — src/memory/__init__.py `TheMemory.build_context_prompt`

The four retrieval sources are external I/O. A source outcome is
`Except Unit (List _)`: `.error` stands for a raised exception in the
underlying fetch, `.ok` for the returned rows. `get_recent_conversations`
and `get_active_insights` catch internally and return `[]` (modelled by
`recover`); the semantic-search and proactive-suggestion calls are guarded
by `try/except` inside `build_context_prompt` itself. -/

/-- One row of `agentee_conversations` as used by the context builder. -/
structure Conv where
  query : String
  response : String
deriving DecidableEq

/-- One row of `agentee_insights` as used by the context builder. -/
structure Insight where
  insight_type : String
  content : String
  project_tags : List String
deriving DecidableEq

/-- One semantic match. `simText` is the rendered `f"{sim:.0%}"` percentage
(the underlying float stays outside the embedding; no claim depends on
it). -/
structure SemMatch where
  simText : String
  chunk_text : String
deriving DecidableEq

/-- `conv.get("query", "")[:200]` (memory/__init__.py line 180). -/
def truncConvQuery (c : Conv) : List Char := pyTrunc c.query 200

/-- `conv.get("response", "")[:300]` (memory/__init__.py line 181). -/
def truncConvResponse (c : Conv) : List Char := pyTrunc c.response 300

/-- `ins.get("content", "")[:150]` (memory/__init__.py line 192). -/
def truncInsightContent (i : Insight) : List Char := pyTrunc i.content 150

/-- `m.get("chunk_text", "")[:200]` (memory/__init__.py line 206). -/
def truncChunk (m : SemMatch) : List Char := pyTrunc m.chunk_text 200

/-- The `[Recent conversation history]` section lines: the conversations
are walked in `reversed(...)` order (oldest first). -/
def historyLines (convs : List Conv) : List String :=
  "[Recent conversation history]" ::
    (convs.reverse.map (fun c =>
      ["Tee: " ++ String.mk (truncConvQuery c),
       "A-GENTEE: " ++ String.mk (truncConvResponse c)])).flatten

/-- Section 1: recent conversations, omitted when empty. -/
def historySection (convs : List Conv) : Option String :=
  if convs.isEmpty then none
  else some (String.intercalate "\n" (historyLines convs))

/-- One `- [type][tags] content` insight line
(memory/__init__.py lines 190-196). -/
def insightLine (i : Insight) : String :=
  let tagStr :=
    if i.project_tags.isEmpty then ""
    else " [" ++ String.intercalate ", " i.project_tags ++ "]"
  "- [" ++ i.insight_type ++ "]" ++ tagStr ++ " " ++ String.mk (truncInsightContent i)

/-- Section 2: active insights, omitted when empty. -/
def insightsSection (ins : List Insight) : Option String :=
  if ins.isEmpty then none
  else some (String.intercalate "\n"
    ("[Active insights from past conversations]" :: ins.map insightLine))

/-- One `- (NN%) chunk` semantic-match line (memory/__init__.py line 207). -/
def semLine (m : SemMatch) : String :=
  "- (" ++ m.simText ++ ") " ++ String.mk (truncChunk m)

/-- Section 3: semantic matches — attempted only when the query is truthy
and an embedding client exists; a raised search error or an empty result
omits the section (memory/__init__.py lines 199-210). -/
def semanticSection (query : String) (hasEmbed : Bool)
    (semRes : Except Unit (List SemMatch)) : Option String :=
  if query = "" then none
  else if !hasEmbed then none
  else
    match semRes with
    | .ok ms =>
      if ms.isEmpty then none
      else some (String.intercalate "\n"
        ("[Relevant past context (semantic match)]" :: ms.map semLine))
    | .error _ => none

/-- One `- 💡 suggestion` line (memory/__init__.py line 218). -/
def suggestionLine (s : String) : String := "- 💡 " ++ s

/-- Section 4: proactive suggestions — a raised error or an empty result
omits the section (memory/__init__.py lines 213-222). -/
def suggestionsSection (sugRes : Except Unit (List String)) : Option String :=
  match sugRes with
  | .ok sugs =>
    if sugs.isEmpty then none
    else some (String.intercalate "\n"
      ("[Proactive suggestions for Tee]" :: sugs.map suggestionLine))
  | .error _ => none

/-- The internal `try/except ... return []` of the conversation and
insight fetchers: a raised fetch error yields the empty row list. -/
def recover {α : Type} (r : Except Unit (List α)) : List α :=
  match r with
  | .ok l => l
  | .error _ => []

/-- `TheMemory.build_context_prompt` (memory/__init__.py lines 161-227):
append each non-empty section in the fixed order history, insights,
semantic matches, suggestions; return `""` when no section survives. -/
def buildContextPrompt (convRes : Except Unit (List Conv))
    (insRes : Except Unit (List Insight)) (query : String) (hasEmbed : Bool)
    (semRes : Except Unit (List SemMatch)) (sugRes : Except Unit (List String)) : String :=
  let sections :=
    (historySection (recover convRes)).toList
      ++ (insightsSection (recover insRes)).toList
      ++ (semanticSection query hasEmbed semRes).toList
      ++ (suggestionsSection sugRes).toList
  if sections.isEmpty then "" else String.intercalate "\n\n" sections

/-- A raised semantic search never yields a section. -/
theorem semanticSection_error (query : String) (hasEmbed : Bool) :
    semanticSection query hasEmbed (.error ()) = none := by
  unfold semanticSection
  split
  · rfl
  · split
    · rfl
    · rfl

/-- An empty semantic result never yields a section. -/
theorem semanticSection_ok_nil (query : String) (hasEmbed : Bool) :
    semanticSection query hasEmbed (.ok []) = none := by
  unfold semanticSection
  split
  · rfl
  · split
    · rfl
    · rfl

/-- C8: the assembled block is the blank-line join of exactly the non-empty
sections in the fixed order history, insights, semantic matches,
suggestions; a failure in any single retrieval source produces the same
block as that source returning no rows (so only that section is omitted
and the assembly never fails); and when all four sources fail the result
is the empty string. -/
theorem buildContext_assembly (convRes : Except Unit (List Conv))
    (insRes : Except Unit (List Insight)) (query : String) (hasEmbed : Bool)
    (semRes : Except Unit (List SemMatch)) (sugRes : Except Unit (List String)) :
    (buildContextPrompt convRes insRes query hasEmbed semRes sugRes
        = String.intercalate "\n\n"
            (([historySection (recover convRes), insightsSection (recover insRes),
               semanticSection query hasEmbed semRes,
               suggestionsSection sugRes]).filterMap id))
      ∧ (buildContextPrompt (.error ()) insRes query hasEmbed semRes sugRes
            = buildContextPrompt (.ok []) insRes query hasEmbed semRes sugRes
          ∧ buildContextPrompt convRes (.error ()) query hasEmbed semRes sugRes
              = buildContextPrompt convRes (.ok []) query hasEmbed semRes sugRes
          ∧ buildContextPrompt convRes insRes query hasEmbed (.error ()) sugRes
              = buildContextPrompt convRes insRes query hasEmbed (.ok []) sugRes
          ∧ buildContextPrompt convRes insRes query hasEmbed semRes (.error ())
              = buildContextPrompt convRes insRes query hasEmbed semRes (.ok []))
      ∧ buildContextPrompt (.error ()) (.error ()) query hasEmbed (.error ()) (.error ())
          = "" := by
  refine ⟨?_, ⟨rfl, rfl, ?_, ?_⟩, ?_⟩
  · cases h1 : historySection (recover convRes) <;>
      cases h2 : insightsSection (recover insRes) <;>
        cases h3 : semanticSection query hasEmbed semRes <;>
          cases h4 : suggestionsSection sugRes <;>
            simp [buildContextPrompt, h1, h2, h3, h4, List.filterMap, String.intercalate]
  · simp [buildContextPrompt, semanticSection_error, semanticSection_ok_nil]
  · simp [buildContextPrompt, suggestionsSection]
  · simp [buildContextPrompt, semanticSection_error, suggestionsSection, historySection,
      insightsSection, recover, historyLines]

/-! ### Proactive suggestions — src/memory/__init__.py
`TheMemory.get_proactive_suggestions` -/

/-- One stale-task suggestion (memory/__init__.py lines 259-266), content
truncated to 100 characters. -/
def staleSuggestion (t : Insight) : String :=
  let tagStr :=
    if t.project_tags.isEmpty then ""
    else " (" ++ String.intercalate ", " t.project_tags ++ ")"
  "Stale task" ++ tagStr ++ ": \"" ++ String.mk (pyTrunc t.content 100)
    ++ "\" — still open for 3+ days"

/-- One cross-project suggestion (memory/__init__.py lines 281-285),
content truncated to 80 characters. -/
def crossSuggestion (i : Insight) : String :=
  "Cross-project connection (" ++ String.intercalate ", " i.project_tags ++ "): \""
    ++ String.mk (pyTrunc i.content 80) ++ "\""

/-- The cross-project loop (memory/__init__.py lines 278-288): append a
suggestion per insight with at least two project tags, breaking once five
suggestions have accumulated. -/
def addCrossSuggestions : List String → List Insight → List String
  | acc, [] => acc
  | acc, i :: rest =>
    if 2 ≤ i.project_tags.length then
      let acc2 := acc ++ [crossSuggestion i]
      if 5 ≤ acc2.length then acc2 else addCrossSuggestions acc2 rest
    else addCrossSuggestions acc rest

/-- A yesterday conversation (query, category) contributes its 60-character
query truncation as a topic when the category is not
simple/default/unknown and the truncation is non-empty
(memory/__init__.py lines 303-309). -/
def continuityTopic (qc : String × String) : Option String :=
  if qc.2 ∈ (["simple", "default", "unknown"] : List String) then none
  else if String.mk (pyTrunc qc.1 60) = "" then none
  else some (String.mk (pyTrunc qc.1 60))

/-- One continuity suggestion (memory/__init__.py lines 310-312). -/
def continuitySuggestion (topic : String) : String :=
  "Yesterday you discussed: \"" ++ topic ++ "\" — want to continue?"

/-- `TheMemory.get_proactive_suggestions` (memory/__init__.py lines
233-324), over the rows the three sub-fetches returned: stale tasks, then
cross-project connections, then up to two continuity topics; capped at
five. Python collects topics in a `set` before `list(topics)[:2]`; the set
is modelled by first-occurrence deduplication (no claim depends on the
set's iteration order). -/
def getProactiveSuggestions (stale : List Insight) (cross : List Insight)
    (yesterdayConvs : List (String × String)) : List String :=
  let s1 := stale.map staleSuggestion
  let s2 := addCrossSuggestions s1 cross
  let topics := (yesterdayConvs.filterMap continuityTopic).dedup.take 2
  (s2 ++ topics.map continuitySuggestion).take 5

/-- C9: no included item text exceeds its per-item character budget (query
200, response 300, insight content 150, semantic chunk 200), and no
section holds more items than its cap — history at most the requested
limit, insights at most 8, semantic matches at most 3 (each bounded by the
`limit`/`match_count` the fetch requests from the store), and suggestions
at most 5 (enforced by the final `[:5]`). -/
theorem context_truncation_bounds (maxConversations : Nat) (convs : List Conv)
    (ins : List Insight) (ms : List SemMatch) (stale cross : List Insight)
    (yconvs : List (String × String))
    (hconv : convs.length ≤ maxConversations) (hins : ins.length ≤ 8)
    (hsem : ms.length ≤ 3) :
    (∀ c ∈ convs, (truncConvQuery c).length ≤ 200 ∧ (truncConvResponse c).length ≤ 300)
      ∧ (∀ i ∈ ins, (truncInsightContent i).length ≤ 150)
      ∧ (∀ m ∈ ms, (truncChunk m).length ≤ 200)
      ∧ convs.length ≤ maxConversations ∧ ins.length ≤ 8 ∧ ms.length ≤ 3
      ∧ (getProactiveSuggestions stale cross yconvs).length ≤ 5 := by
  refine ⟨fun c _ => ⟨List.length_take_le _ _, List.length_take_le _ _⟩,
          fun i _ => List.length_take_le _ _,
          fun m _ => List.length_take_le _ _,
          hconv, hins, hsem, ?_⟩
  simp only [getProactiveSuggestions]
  exact List.length_take_le _ _

/-- Witness for `context_truncation_bounds` on a one-conversation store
snapshot. -/
theorem context_truncation_bounds_witness :
    (∀ c ∈ [(⟨"what is rootrise", "an answer"⟩ : Conv)],
        (truncConvQuery c).length ≤ 200 ∧ (truncConvResponse c).length ≤ 300)
      ∧ (∀ i ∈ ([] : List Insight), (truncInsightContent i).length ≤ 150)
      ∧ (∀ m ∈ ([] : List SemMatch), (truncChunk m).length ≤ 200)
      ∧ ([(⟨"what is rootrise", "an answer"⟩ : Conv)]).length ≤ 5
      ∧ ([] : List Insight).length ≤ 8 ∧ ([] : List SemMatch).length ≤ 3
      ∧ (getProactiveSuggestions [] [] []).length ≤ 5 :=
  context_truncation_bounds 5 [⟨"what is rootrise", "an answer"⟩] [] [] [] [] []
    (by decide) (by decide) (by decide)

/-! ### C1: adapter call signatures — src/mind/claude_adapter.py,
gemini_adapter.py, openai_adapter.py

Python call binding, restricted to what the adapters use: positional-or-
keyword parameters (beyond `self`), some with defaults, no `*args`/
`**kwargs`. -/

/-- A Python function signature: parameter names in order (excluding
`self`) and the subset carrying default values. -/
structure PySig where
  params : List String
  withDefault : List String
deriving DecidableEq

/-- A call with `npos` positional arguments and keyword arguments `kwargs`
binds against `sig` without a `TypeError` iff no keyword is unknown or
doubly bound, the positionals fit, and every parameter without a default
is bound. -/
def callAccepted (sig : PySig) (npos : Nat) (kwargs : List String) : Bool :=
  decide (npos ≤ sig.params.length)
    && kwargs.all (fun k =>
        sig.params.contains k && !(sig.params.take npos).contains k)
    && sig.params.all (fun p =>
        (sig.params.take npos).contains p || kwargs.contains p
          || sig.withDefault.contains p)

/-- `ClaudeAdapter.generate(self, query)` (claude_adapter.py line 71):
no token-budget parameter. -/
def claudeGenerateSig : PySig := { params := ["query"], withDefault := [] }

/-- `GeminiAdapter.generate(self, query, max_tokens=2048)`
(gemini_adapter.py line 22). -/
def geminiGenerateSig : PySig :=
  { params := ["query", "max_tokens"], withDefault := ["max_tokens"] }

/-- `OpenAIAdapter.generate(self, query, max_tokens=2048)`
(openai_adapter.py line 22). -/
def openaiGenerateSig : PySig :=
  { params := ["query", "max_tokens"], withDefault := ["max_tokens"] }

/-- `adapter.generate(enriched, max_tokens=max_tokens)`
(mind/__init__.py line 136): one positional argument and the keyword
`max_tokens`. -/
def thinkGenerateCallPos : Nat := 1

/-- The keyword arguments of the orchestrator's generate call. -/
def thinkGenerateCallKw : List String := ["max_tokens"]

/-- C1 fails on the code: the orchestrator's uniform
`generate(prompt, max_tokens=...)` invocation binds against the gemini and
openai adapters but not against the claude adapter, whose `generate`
accepts only the prompt — the call raises `TypeError` for every prompt and
every token budget, so the three adapters do not share the claimed uniform
contract. -/
theorem adapter_contract_mismatch :
    callAccepted claudeGenerateSig thinkGenerateCallPos thinkGenerateCallKw = false
      ∧ callAccepted geminiGenerateSig thinkGenerateCallPos thinkGenerateCallKw = true
      ∧ callAccepted openaiGenerateSig thinkGenerateCallPos thinkGenerateCallKw = true := by
  decide

end Agentee
